import Mathlib

/-!
# Verification of the `@computesdk/browser` sandbox provider

Shallow embedding of the browser sandbox provider: the worker RPC helper
(`callWorker`), the Pyodide worker dispatcher (`onmessage`, `ensurePyodide`,
`execWithCapture`), the sandbox registry lifecycle (`create`, `destroy`,
`runCommand`), the filesystem facade (`normalizePath`, `browserFs`,
`watchFS`) and the two result-normalization functions
(`makeExecutionResult`, `toExecutionResult`).

JavaScript strings are Lean `String`s; absent/undefined fields are `Option`;
JS truthiness of a string-valued field is "present and non-empty".
Asynchronous effects (worker replies, the stat service, exceptions thrown by
`worker.terminate` or by the runtime loader) are passed in explicitly as
oracle values, so every definition is an executable pure function.
-/

namespace ComputeSDK

/-- JS `s.startsWith("/")`: the first character of `s` is a slash.
Both call sites in the source test only the one-character prefix `"/"`. -/
def startsWithSlash (s : String) : Bool :=
  match s.data with
  | [] => false
  | c :: _ => c == '/'

/-- JS `s.endsWith("/")`: the last character of `s` is a slash.
The only call site in the source tests the one-character suffix `"/"`. -/
def endsWithSlash (s : String) : Bool :=
  match s.data.getLast? with
  | some c => c == '/'
  | none => false

/-- JS truthiness of an optional string-valued field: present and non-empty. -/
def truthy : Option String → Bool
  | some s => s != ""
  | none => false

/-! ## Worker RPC channel (`callWorker`, both provider variants)

`callWorker` generates a fresh correlation id, posts `{id, ...msg}` and
registers a listener that ignores every delivered message whose `id` field
differs (`if (e.data?.id !== id) return`), and on the first match removes
itself and resolves with that message. We model the delivered message
sequence as a list and the listener's behaviour as a scan for the first
matching message. -/

/-- A message delivered on the worker's message stream (`e.data`): an
optional `id` field and an opaque body. A message whose `e.data` is null or
lacks an `id` is modelled with `id := none`. -/
structure DMsg where
  id : Option String
  body : String
deriving Repr, DecidableEq

/-- The listener's match test `e.data?.id !== id`, negated: the delivered
message carries an `id` field equal to the call's correlation id. -/
def matchesId (callId : String) (m : DMsg) : Bool :=
  m.id == some callId

/-- The value `callWorker`'s promise resolves with, given the sequence of
messages delivered on the stream: the first message whose `id` matches;
non-matching messages are skipped (the listener returns without effect), and
the scan stops at the first match (the listener deregisters itself). -/
def callWorkerResolve (callId : String) : List DMsg → Option DMsg
  | [] => none
  | m :: rest => if matchesId callId m then some m else callWorkerResolve callId rest

/-! ## Pyodide worker (`src/unnamed/part_000`) -/

/-- The worker's `ExecResult` record. The TS type marks `exitCode` optional,
but both return paths of `execWithCapture` set it, so it is total here. -/
structure ExecResult where
  ok : Bool
  exitCode : Int
  stdout : Option String
  stderr : Option String
  error : Option String
deriving Repr, DecidableEq

/-- Outcome of `py.runPythonAsync(wrapped)` inside `execWithCapture`:
either the wrapper ran and produced the `(exit code, stdout, stderr)` triple,
or the call threw a JS exception, rendered as `String(e?.message ?? e)`
(`msgRender`) and `String(e)` (`fullRender`). -/
inductive PyRunOutcome
  | ran (exitCode : Int) (stdout stderr : String)
  | threw (msgRender fullRender : String)
deriving Repr, DecidableEq

/-- `execWithCapture`: on success `ok` is `exitCode === 0` and the captured
streams are forwarded; on a thrown exception the result is
`{ok:false, exitCode:1, stderr:String(e?.message ?? e), error:String(e)}`. -/
def execWithCapture : PyRunOutcome → ExecResult
  | PyRunOutcome.ran ec out err =>
      { ok := ec == 0, exitCode := ec, stdout := some out, stderr := some err, error := none }
  | PyRunOutcome.threw m f =>
      { ok := false, exitCode := 1, stdout := none, stderr := some m, error := some f }

/-- Inbound worker message payload: `init`, `runCode`, or an unknown `type`
(carried as the raw optional `type` field for the error string). -/
inductive InPayload
  | init (indexURL : Option String)
  | runCode (code : String)
  | unknown (t : Option String)
deriving Repr, DecidableEq

/-- An inbound worker message: optional `id` (echoed as `''` when absent,
via `(msg as any)?.id ?? ''`) and the payload. -/
structure InMsg where
  id : Option String
  payload : InPayload
deriving Repr, DecidableEq

/-- JS template-literal rendering of the unknown `type` field:
`undefined` renders as the string `"undefined"`. -/
def renderMsgType : Option String → String
  | some s => s
  | none => "undefined"

/-- Whether the payload reaches an interpreter-invoking branch of the
dispatcher (`init` or `runCode`), as opposed to the unknown-type branch. -/
def isExecMsg : InPayload → Bool
  | InPayload.init _ => true
  | InPayload.runCode _ => true
  | InPayload.unknown _ => false

/-- Outcome of the `await ensurePyodide(...)` / `await execWithCapture(...)`
pair inside the dispatcher's `try` block: either the runtime loaded and the
interpreter invocation had outcome `p`, or an exception escaped to the
dispatcher's `catch` (e.g. the runtime failed to load), rendered as
`String(e?.message ?? e)` (`msgRender`) and `String(e)` (`fullRender`). -/
inductive HandleOutcome
  | ran (p : PyRunOutcome)
  | threw (msgRender fullRender : String)
deriving Repr, DecidableEq

/-- A posted worker reply `{id, ok, exitCode, stdout?, stderr?, error?}`. -/
structure Reply where
  id : String
  ok : Bool
  exitCode : Int
  stdout : Option String
  stderr : Option String
  error : Option String
deriving Repr, DecidableEq

/-- Spread `{id, ...result}` of an `ExecResult` into a posted reply. -/
def replyOfExec (idEcho : String) (r : ExecResult) : Reply :=
  { id := idEcho, ok := r.ok, exitCode := r.exitCode,
    stdout := r.stdout, stderr := r.stderr, error := r.error }

/-- The reply posted from the dispatcher's `catch` block:
`{id, ok:false, exitCode:1, error:String(e?.message ?? e), stderr:String(e)}`. -/
def catchReply (idEcho msgRender fullRender : String) : Reply :=
  { id := idEcho, ok := false, exitCode := 1, stdout := none,
    stderr := some fullRender, error := some msgRender }

/-- The reply posted for an unrecognized message type:
`{id, ok:false, exitCode:1, error:"Unknown message type: <type>"}`. -/
def unknownReply (idEcho : String) (t : Option String) : Reply :=
  { id := idEcho, ok := false, exitCode := 1, stdout := none, stderr := none,
    error := some ("Unknown message type: " ++ renderMsgType t) }

/-- The worker dispatcher (`self.onmessage`), as the list of replies it posts
for one inbound message, given the oracle outcome of the handling:
`init` and `runCode` post the (probe/code) execution result spread with the
echoed id; an unknown type posts `{id, ok:false, exitCode:1, error:...}`;
an exception caught by the dispatcher posts
`{id, ok:false, exitCode:1, error:String(e?.message ?? e), stderr:String(e)}`. -/
def onmessage (msg : InMsg) (out : HandleOutcome) : List Reply :=
  match msg.payload with
  | InPayload.init _ =>
      match out with
      | HandleOutcome.ran p => [replyOfExec (msg.id.getD "") (execWithCapture p)]
      | HandleOutcome.threw m f => [catchReply (msg.id.getD "") m f]
  | InPayload.runCode _ =>
      match out with
      | HandleOutcome.ran p => [replyOfExec (msg.id.getD "") (execWithCapture p)]
      | HandleOutcome.threw m f => [catchReply (msg.id.getD "") m f]
  | InPayload.unknown t => [unknownReply (msg.id.getD "") t]

/-! ### `ensurePyodide` memoization -/

/-- Initial value of the worker's `PYODIDE_INDEX_URL` global. -/
def PYODIDE_INDEX_URL : String := "https://cdn.jsdelivr.net/pyodide/v0.29.0/"

/-- The mutable globals of the worker: `pyPromise` (holding, when set, a
token identifying the stored load promise), the `PYODIDE_INDEX_URL` global,
and a count of runtime loads performed (each execution of the `!pyPromise`
branch is one `importScripts` + `loadPyodide`). -/
structure WorkerState where
  pyPromise : Option Nat
  indexUrl : String
  loadCount : Nat
deriving Repr, DecidableEq

/-- Worker state at startup. -/
def initialWorkerState : WorkerState :=
  { pyPromise := none, indexUrl := PYODIDE_INDEX_URL, loadCount := 0 }

/-- `indexURL.endsWith('/') ? indexURL : indexURL + '/'`. -/
def normalizeIndexURL (u : String) : String :=
  if endsWithSlash u then u else u ++ "/"

/-- `ensurePyodide(indexURL?)`: when `pyPromise` is unset, update the URL
global if `indexURL` is truthy (a present, non-empty string), perform the
load and store a fresh promise token; otherwise return the stored token with
the state untouched. -/
def ensurePyodide (indexURL : Option String) (st : WorkerState) : Nat × WorkerState :=
  match st.pyPromise with
  | some p => (p, st)
  | none =>
      let url := match indexURL with
        | some u => if u != "" then normalizeIndexURL u else st.indexUrl
        | none => st.indexUrl
      (st.loadCount,
        { pyPromise := some st.loadCount, indexUrl := url, loadCount := st.loadCount + 1 })

/-- The `ensurePyodide` argument a handled message induces: `init` passes its
`indexURL`, `runCode` passes none. -/
def ensureArg : InPayload → Option String
  | InPayload.init u => u
  | InPayload.runCode _ => none
  | InPayload.unknown _ => none

/-- State evolution of the worker across a sequence of `ensurePyodide`
invocations (one per handled `init`/`runCode` message). -/
def runCalls (calls : List (Option String)) (st : WorkerState) : WorkerState :=
  calls.foldl (fun s c => (ensurePyodide c s).2) st

/-! ## Provider: registry, `create`, `destroy`, `runCommand`
(`src/packages/browser/src/index.ts`, both variants) -/

/-- A registered sandbox handle: id, declared runtime, worker handle token. -/
structure BrowserSandbox where
  id : String
  runtime : String
  worker : Nat
deriving Repr, DecidableEq

/-- The provider registry, a keyed map modelled as an association list in
insertion order (`Map<string, BrowserSandbox>`). -/
abbrev Registry := List (String × BrowserSandbox)

/-- `registry.get(k)`. -/
def regGet : Registry → String → Option BrowserSandbox
  | [], _ => none
  | (k0, v0) :: rest, k => if k0 = k then some v0 else regGet rest k

/-- `registry.set(k, v)`: replace in place, or append when absent. -/
def regSet : Registry → String → BrowserSandbox → Registry
  | [], k, v => [(k, v)]
  | (k0, v0) :: rest, k, v =>
      if k0 = k then (k, v) :: rest else (k0, v0) :: regSet rest k v

/-- `registry.delete(k)`: remove the entry keyed `k`. -/
def regDelete : Registry → String → Registry
  | [], _ => []
  | (k0, v0) :: rest, k =>
      if k0 = k then regDelete rest k else (k0, v0) :: regDelete rest k

/-- `destroy(_, sandboxId)`: when the id is registered, terminate the worker
inside `try ... finally registry.delete(sandboxId)`. `terminateThrows` is the
oracle for whether `worker.terminate()` throws; the returned option is the
exception that `finally` (with no `catch`) re-propagates after the deletion
has run. When the id is absent, nothing happens. -/
def destroy (terminateThrows : Bool) (r : Registry) (sandboxId : String) :
    Registry × Option String :=
  match regGet r sandboxId with
  | some _ =>
      (regDelete r sandboxId, if terminateThrows then some "terminate threw" else none)
  | none => (r, none)

/-- `BrowserConfig`: optional default runtime and Pyodide index URL. -/
structure BrowserConfig where
  runtime : Option String
  pyodideIndexURL : Option String
deriving Repr, DecidableEq

/-- `CreateSandboxOptions`: optional runtime override and sandbox id. -/
structure CreateSandboxOptions where
  runtime : Option String
  sandboxId : Option String
deriving Repr, DecidableEq

/-- The runtime `create` validates:
`(options?.runtime) ?? config.runtime ?? 'python'` (nullish coalescing). -/
def resolvedRuntime (config : BrowserConfig) (options : Option CreateSandboxOptions) : String :=
  match options.bind CreateSandboxOptions.runtime with
  | some r => r
  | none =>
      match config.runtime with
      | some r => r
      | none => "python"

/-- Provider-side mutable state: the registry and the number of workers
spawned so far (`spawnPythonWorker` calls). -/
structure ProviderState where
  registry : Registry
  spawned : Nat
deriving Repr, DecidableEq

/-- `create(config, options)`: validate the resolved runtime first and throw
before any worker is spawned or the registry touched; otherwise spawn a
worker, pick the sandbox id (caller-supplied or fresh), init it, register
and return the sandbox. `freshId` is the oracle for `crypto.randomUUID()`. -/
def create (config : BrowserConfig) (options : Option CreateSandboxOptions)
    (st : ProviderState) (freshId : String) : ProviderState × Except String BrowserSandbox :=
  let runtime := resolvedRuntime config options
  if runtime ≠ "python" then
    (st, Except.error
      ("Unsupported runtime \"" ++ runtime ++ "\". Only \"python\" is supported."))
  else
    let worker := st.spawned
    let sandboxId := match options.bind CreateSandboxOptions.sandboxId with
      | some s => s
      | none => "browser-sb-" ++ freshId
    let sandbox : BrowserSandbox := { id := sandboxId, runtime := "python", worker := worker }
    ({ registry := regSet st.registry sandboxId sandbox, spawned := st.spawned + 1 },
      Except.ok sandbox)

/-! ## Result normalization (`makeExecutionResult` / `toExecutionResult`) -/

/-- A raw worker response record `{ok, exitCode?, stdout?, stderr?, error?}`
as received by the provider (all payload fields optional). -/
structure WorkerResponse where
  ok : Bool
  exitCode : Option Int
  stdout : Option String
  stderr : Option String
  error : Option String
deriving Repr, DecidableEq

/-- The SDK `ExecutionResult` built by the first variant. -/
structure ExecutionResult where
  exitCode : Int
  stdout : String
  stderr : String
  sandboxId : String
  provider : String
  executionTime : Int
deriving Repr, DecidableEq

/-- The bare `ExecutionResult` built by the second variant (no derived
sandbox/provider/timing fields). -/
structure ExecutionResultBare where
  exitCode : Int
  stdout : String
  stderr : String
deriving Repr, DecidableEq

/-- `makeExecutionResult` (first variant):
exitCode is the response's when it is a number, else 0/1 from `ok`;
stdout defaults to `''`; stderr defaults to `''` when ok, else to the error
string, else `''`. -/
def makeExecutionResult (sandboxId : String) (response : WorkerResponse) : ExecutionResult :=
  { exitCode := match response.exitCode with
      | some n => n
      | none => if response.ok then 0 else 1,
    stdout := response.stdout.getD "",
    stderr := match response.stderr with
      | some s => s
      | none => if response.ok then "" else response.error.getD "",
    sandboxId := sandboxId,
    provider := "@computesdk/browser",
    executionTime := 0 }

/-- `toExecutionResult` (second variant): the same normalization without the
derived fields. -/
def toExecutionResult (res : WorkerResponse) : ExecutionResultBare :=
  { exitCode := match res.exitCode with
      | some n => n
      | none => if res.ok then 0 else 1,
    stdout := res.stdout.getD "",
    stderr := match res.stderr with
      | some s => s
      | none => if res.ok then "" else res.error.getD "" }

/-- `runCommand(sandbox, command)` (first variant): always a fixed failing
result with exit code 127 built through `makeExecutionResult`. -/
def runCommand (sandbox : BrowserSandbox) (command : String) : ExecutionResult :=
  makeExecutionResult sandbox.id
    { ok := false, exitCode := some 127, stdout := none,
      stderr := some ("runCommand(\"" ++ command ++ "\") not supported in browser"),
      error := none }

/-! ## Filesystem facade (`src/packages/browser/src/filesystem/filesystem.ts`) -/

/-- `normalizePath`: `p && p.startsWith('/') ? p : '/' + (p || '')`.
When `p` is truthy (non-empty), `p || ''` is `p`; when `p` is `''`, both
`'/' + ''` and `"/" ++ p` are `"/"`, so the else branch is `"/" ++ p`. -/
def normalizePath (p : String) : String :=
  if p != "" && startsWithSlash p then p else "/" ++ p

/-- A call into the virtual-filesystem service (`opfs-worker`). -/
inductive FSCall
  | readFileC (path : String) (encoding : String)
  | writeFileC (path : String) (content : String)
  | mkdirC (path : String) (recursive : Bool)
  | readDirC (path : String)
  | statC (path : String)
  | removeC (path : String) (recursive : Bool)
deriving Repr, DecidableEq

/-- The path argument of a service call. -/
def FSCall.path : FSCall → String
  | FSCall.readFileC p _ => p
  | FSCall.writeFileC p _ => p
  | FSCall.mkdirC p _ => p
  | FSCall.readDirC p => p
  | FSCall.statC p => p
  | FSCall.removeC p _ => p

namespace browserFs

/-- `browserFs.readFile`: `fs.readFile(normalizePath(path), 'utf8')`. -/
def readFileCall (path : String) : FSCall := FSCall.readFileC (normalizePath path) "utf8"

/-- `browserFs.writeFile`: `fs.writeFile(normalizePath(path), content)`. -/
def writeFileCall (path content : String) : FSCall := FSCall.writeFileC (normalizePath path) content

/-- `browserFs.mkdir`: `fs.mkdir(normalizePath(path), {recursive:true})`. -/
def mkdirCall (path : String) : FSCall := FSCall.mkdirC (normalizePath path) true

/-- `browserFs.readdir`: `fs.readDir(normalizePath(path))`. -/
def readdirCall (path : String) : FSCall := FSCall.readDirC (normalizePath path)

/-- `browserFs.exists`: the stat lookup it attempts. -/
def existsCall (path : String) : FSCall := FSCall.statC (normalizePath path)

/-- `browserFs.remove`: `fs.remove(normalizePath(path), {recursive:true})`. -/
def removeCall (path : String) : FSCall := FSCall.removeC (normalizePath path) true

/-- `browserFs.exists`: `try { await fs.stat(normalizePath(path)); return true }
catch { return false }`. The service's `stat` is the oracle `stat`, returning
either metadata or a fault; `existsImpl` itself is total (never throws). -/
def existsImpl {σ ε : Type} (stat : String → Except ε σ) (path : String) : Bool :=
  match stat (normalizePath path) with
  | Except.ok _ => true
  | Except.error _ => false

end browserFs

/-! ### `watchFS` broadcast-channel handler -/

/-- A raw record delivered on the watch broadcast channel (`e.data`):
optional `type`, `path`, `from`, `to` fields (`fromPath`/`toPath` model the
JS `from`/`to` properties). -/
structure WatchRaw where
  type : Option String
  path : Option String
  fromPath : Option String
  toPath : Option String
deriving Repr, DecidableEq

/-- A canonical change event handed to the caller's callback. -/
inductive WatchEvent
  | rename (fromP toP : String)
  | create (path : String)
  | modify (path : String)
  | remove (path : String)
deriving Repr, DecidableEq

/-- The `watchFS` channel handler: `e.data` falsy or no callback registered
means no invocation; otherwise a `rename` with truthy `from` and `to`, or a
`create`/`modify`/`remove` with truthy `path`, is forwarded with its fields
unchanged; everything else is dropped. Returns the callback invocation made,
if any. -/
def watchHandler (msg : Option WatchRaw) (hasCallback : Bool) : Option WatchEvent :=
  match msg with
  | none => none
  | some m =>
      if !hasCallback then none
      else if m.type == some "rename" && truthy m.fromPath && truthy m.toPath then
        some (WatchEvent.rename (m.fromPath.getD "") (m.toPath.getD ""))
      else if (m.type == some "create" || m.type == some "modify") && truthy m.path then
        (if m.type == some "create" then some (WatchEvent.create (m.path.getD ""))
         else some (WatchEvent.modify (m.path.getD "")))
      else if m.type == some "remove" && truthy m.path then
        some (WatchEvent.remove (m.path.getD ""))
      else none

/-- Well-formedness of a watch record, as the handler checks it: a rename
carrying truthy `from` and `to`, or a create/modify/remove carrying a truthy
`path`. -/
def wellFormedWatchMsg (m : WatchRaw) : Bool :=
  (m.type == some "rename" && truthy m.fromPath && truthy m.toPath) ||
  ((m.type == some "create" || m.type == some "modify" || m.type == some "remove")
    && truthy m.path)

/-! ## Helper lemmas -/

theorem startsWithSlash_slash_append (p : String) : startsWithSlash ("/" ++ p) = true := by
  have hdata : ("/" ++ p).data = '/' :: p.data := by
    rw [String.data_append]; rfl
  unfold startsWithSlash
  rw [hdata]
  rfl

theorem slash_append_ne_empty (p : String) : ("/" ++ p) ≠ "" := by
  intro h
  have h2 : ("/" ++ p).data = "".data := congrArg String.data h
  rw [String.data_append] at h2
  exact absurd h2 (by simp)

theorem append_ne_empty_left (a b : String) (h : a.data ≠ []) : (a ++ b) ≠ "" := by
  intro hc
  have h2 : (a ++ b).data = "".data := congrArg String.data hc
  rw [String.data_append] at h2
  have h3 : a.data ++ b.data = [] := h2
  exact h (List.append_eq_nil.mp h3).1

theorem callWorkerResolve_id (callId : String) (msgs : List DMsg) (m : DMsg)
    (h : callWorkerResolve callId msgs = some m) : m.id = some callId := by
  induction msgs with
  | nil => simp [callWorkerResolve] at h
  | cons m0 rest ih =>
      by_cases hm : matchesId callId m0 = true
      · rw [callWorkerResolve, if_pos hm] at h
        have hm0 : m0 = m := Option.some.inj h
        have : (m0.id == some callId) = true := hm
        rw [hm0] at this
        exact beq_iff_eq.mp this
      · rw [callWorkerResolve, if_neg hm] at h
        exact ih h

theorem regGet_regDelete (r : Registry) (k : String) : regGet (regDelete r k) k = none := by
  induction r with
  | nil => rfl
  | cons kv rest ih =>
      obtain ⟨k0, v0⟩ := kv
      by_cases hk : k0 = k
      · rw [regDelete, if_pos hk]; exact ih
      · rw [regDelete, if_neg hk, regGet, if_neg hk]; exact ih

theorem normalizePath_eq_of_cond (p : String) (h : (p != "" && startsWithSlash p) = true) :
    normalizePath p = p := by
  unfold normalizePath
  rw [if_pos h]

theorem normalizePath_eq_of_not_cond (p : String) (h : (p != "" && startsWithSlash p) = false) :
    normalizePath p = "/" ++ p := by
  unfold normalizePath
  rw [h]
  rfl

/-! ## Claim theorems -/

/-- C1: `callWorker` resolves with the first delivered message whose `id`
equals the call's fresh correlation id; messages with a different or absent
`id` are ignored without error; the listener is removed at the first match,
and among concurrent calls with distinct ids no response is cross-delivered:
a call's resolved response always carries the id that call sent. -/
theorem callWorker_correlation :
    (∀ callId msgs m, callWorkerResolve callId msgs = some m → m.id = some callId) ∧
    (∀ callId m msgs, matchesId callId m = false →
        callWorkerResolve callId (m :: msgs) = callWorkerResolve callId msgs) ∧
    (∀ callId m msgs, matchesId callId m = true →
        callWorkerResolve callId (m :: msgs) = some m) ∧
    (∀ i j msgs m, i ≠ j → callWorkerResolve i msgs = some m → m.id ≠ some j) := by
  refine ⟨fun callId msgs m h => callWorkerResolve_id callId msgs m h, ?_, ?_, ?_⟩
  · intro callId m msgs h
    rw [callWorkerResolve, if_neg (by simp [h])]
  · intro callId m msgs h
    rw [callWorkerResolve, if_pos h]
  · intro i j msgs m hij h
    have hid := callWorkerResolve_id i msgs m h
    rw [hid]
    intro hc
    exact hij (Option.some.inj hc)

/-- C1 witness: among two concurrent calls `"a"` and `"b"`, the call with id
`"a"` skips the reply addressed to `"b"` and an id-less message, resolves on
its own reply, and that reply carries id `"a"`. -/
theorem callWorker_correlation_witness :
    ({ id := some "a", body := "ra" } : DMsg).id = some "a" ∧
    callWorkerResolve "a"
      [{ id := some "b", body := "rb" }, { id := none, body := "noise" },
       { id := some "a", body := "ra" }] = some { id := some "a", body := "ra" } := by
  constructor
  · exact callWorker_correlation.1 "a"
      [{ id := some "b", body := "rb" }, { id := none, body := "noise" },
       { id := some "a", body := "ra" }] { id := some "a", body := "ra" } (by decide)
  · decide

/-- C4: after `destroy(id)`, the registry never contains `id` — the `finally`
block deletes the entry even when `worker.terminate()` throws — and when `id`
is not registered, `destroy` is a no-op that leaves the registry unchanged
and raises nothing. -/
theorem destroy_removes_entry :
    (∀ throws r id, regGet (destroy throws r id).1 id = none) ∧
    (∀ throws r id, regGet r id = none → destroy throws r id = (r, none)) := by
  constructor
  · intro throws r id
    unfold destroy
    cases h : regGet r id with
    | some sb => simpa using regGet_regDelete r id
    | none => simpa using h
  · intro throws r id h
    unfold destroy
    rw [h]

/-- C4 witness: destroying a registered id while termination throws removes
the entry; destroying an absent id leaves a concrete registry untouched. -/
theorem destroy_removes_entry_witness :
    regGet (destroy true [("sb1", { id := "sb1", runtime := "python", worker := 0 })] "sb1").1
      "sb1" = none ∧
    destroy false [("sb1", { id := "sb1", runtime := "python", worker := 0 })] "sb2" =
      ([("sb1", { id := "sb1", runtime := "python", worker := 0 })], none) := by
  constructor
  · exact destroy_removes_entry.1 true
      [("sb1", { id := "sb1", runtime := "python", worker := 0 })] "sb1"
  · exact destroy_removes_entry.2 false
      [("sb1", { id := "sb1", runtime := "python", worker := 0 })] "sb2" (by decide)

/-- C6: every filesystem operation passes `normalizePath p` to the service;
the normalized path always begins with `/`; `readFile("foo.txt")` and
`readFile("/foo.txt")` address the same underlying path; and `normalizePath`
is idempotent. -/
theorem path_normalization :
    (∀ p c, (browserFs.readFileCall p).path = normalizePath p ∧
      (browserFs.writeFileCall p c).path = normalizePath p ∧
      (browserFs.mkdirCall p).path = normalizePath p ∧
      (browserFs.readdirCall p).path = normalizePath p ∧
      (browserFs.existsCall p).path = normalizePath p ∧
      (browserFs.removeCall p).path = normalizePath p) ∧
    (∀ p, startsWithSlash (normalizePath p) = true) ∧
    normalizePath "foo.txt" = normalizePath "/foo.txt" ∧
    (∀ p, normalizePath (normalizePath p) = normalizePath p) := by
  refine ⟨fun p c => ⟨rfl, rfl, rfl, rfl, rfl, rfl⟩, ?_, by decide, ?_⟩
  · intro p
    by_cases h : (p != "" && startsWithSlash p) = true
    · rw [normalizePath_eq_of_cond p h]
      exact (Bool.and_eq_true _ _ |>.mp h).2
    · rw [normalizePath_eq_of_not_cond p (Bool.not_eq_true _ |>.mp h)]
      exact startsWithSlash_slash_append p
  · intro p
    by_cases h : (p != "" && startsWithSlash p) = true
    · rw [normalizePath_eq_of_cond p h, normalizePath_eq_of_cond p h]
    · rw [normalizePath_eq_of_not_cond p (Bool.not_eq_true _ |>.mp h)]
      apply normalizePath_eq_of_cond
      rw [startsWithSlash_slash_append, Bool.and_true, bne_iff_ne]
      exact slash_append_ne_empty p

/-- C7: `exists(p)` returns true iff the service's `stat` on the normalized
path succeeds, and returns false (rather than propagating the fault) whenever
`stat` faults for any reason; `existsImpl` is a total boolean function, so it
never throws. -/
theorem exists_iff_stat_ok {σ ε : Type} (stat : String → Except ε σ) (p : String) :
    (browserFs.existsImpl stat p = true ↔ ∃ v, stat (normalizePath p) = Except.ok v) ∧
    (∀ e, stat (normalizePath p) = Except.error e → browserFs.existsImpl stat p = false) := by
  constructor
  · cases h : stat (normalizePath p) with
    | ok v => simp [browserFs.existsImpl, h]
    | error e => simp [browserFs.existsImpl, h]
  · intro e h
    simp [browserFs.existsImpl, h]

/-- C7 witness: against a concrete stat service that faults on every path,
`exists "a.txt"` evaluates to false. -/
theorem exists_iff_stat_ok_witness :
    browserFs.existsImpl (fun _ => (Except.error "ENOENT" : Except String Unit)) "a.txt"
      = false :=
  (exists_iff_stat_ok (fun _ => (Except.error "ENOENT" : Except String Unit)) "a.txt").2
    "ENOENT" rfl

/-- C9: the two provider variants' result-normalization functions agree on
every worker response: same exit code (the response's when numeric, else 0
when ok and 1 otherwise), same stdout (defaulting to the empty string), and
same stderr (the response's, else empty when ok, else the error string, else
empty). -/
theorem normalizers_agree (sid : String) (r : WorkerResponse) :
    (makeExecutionResult sid r).exitCode = (toExecutionResult r).exitCode ∧
    (makeExecutionResult sid r).stdout = (toExecutionResult r).stdout ∧
    (makeExecutionResult sid r).stderr = (toExecutionResult r).stderr ∧
    (toExecutionResult r).exitCode =
      (match r.exitCode with | some n => n | none => if r.ok then 0 else 1) ∧
    (toExecutionResult r).stdout = r.stdout.getD "" ∧
    (toExecutionResult r).stderr =
      (match r.stderr with | some s => s | none => if r.ok then "" else r.error.getD "") :=
  ⟨rfl, rfl, rfl, rfl, rfl, rfl⟩

theorem endsWithSlash_append_slash (u : String) : endsWithSlash (u ++ "/") = true := by
  have hdata : (u ++ "/").data = u.data ++ ['/'] := by
    rw [String.data_append]
  unfold endsWithSlash
  rw [hdata, List.getLast?_concat]
  rfl

theorem endsWithSlash_normalizeIndexURL (u : String) :
    endsWithSlash (normalizeIndexURL u) = true := by
  unfold normalizeIndexURL
  by_cases h : endsWithSlash u = true
  · rw [if_pos h]; exact h
  · rw [if_neg h]; exact endsWithSlash_append_slash u

theorem execWithCapture_ok_iff (p : PyRunOutcome) :
    ((execWithCapture p).ok = true ↔ (execWithCapture p).exitCode = 0) := by
  cases p with
  | ran ec sout serr => simp [execWithCapture, beq_iff_eq]
  | threw m f => simp [execWithCapture]

theorem ensurePyodide_stable (c : Option String) (st : WorkerState) (q : Nat)
    (h : st.pyPromise = some q) : ensurePyodide c st = (q, st) := by
  unfold ensurePyodide
  rw [h]

theorem runCalls_stable (cs : List (Option String)) (st : WorkerState) (q : Nat)
    (h : st.pyPromise = some q) : runCalls cs st = st := by
  induction cs with
  | nil => rfl
  | cons c rest ih =>
      show runCalls rest (ensurePyodide c st).2 = st
      rw [ensurePyodide_stable c st q h]
      exact ih

theorem ensurePyodide_first (c : Option String) :
    (ensurePyodide c initialWorkerState).2.pyPromise = some 0 ∧
    (ensurePyodide c initialWorkerState).2.loadCount = 1 := by
  cases c with
  | none => exact ⟨rfl, rfl⟩
  | some u =>
      unfold ensurePyodide initialWorkerState
      by_cases h : (u != "") = true
      · simp [h]
      · simp [h]

/-- C2: every reply the worker dispatcher posts satisfies `ok = true` iff
`exitCode = 0`; and when handling throws (e.g. the runtime failed to load,
with a non-empty exception rendering), the reply has `ok = false`,
`exitCode = 1` and a non-empty top-level `error` string. -/
theorem worker_reply_invariant (msg : InMsg) (out : HandleOutcome) :
    (∀ r ∈ onmessage msg out, (r.ok = true ↔ r.exitCode = 0)) ∧
    (∀ m f, m ≠ "" → ∀ r ∈ onmessage msg (HandleOutcome.threw m f),
      r.ok = false ∧ r.exitCode = 1 ∧ ∃ s, r.error = some s ∧ s ≠ "") := by
  obtain ⟨mid, payload⟩ := msg
  constructor
  · intro r hr
    cases payload with
    | init u =>
        cases out with
        | ran p =>
            have hr2 : r = replyOfExec (Option.getD mid "") (execWithCapture p) := by
              simpa [onmessage] using hr
            rw [hr2]
            exact execWithCapture_ok_iff p
        | threw m f =>
            have hr2 : r = catchReply (Option.getD mid "") m f := by
              simpa [onmessage] using hr
            rw [hr2]
            simp [catchReply]
    | runCode code =>
        cases out with
        | ran p =>
            have hr2 : r = replyOfExec (Option.getD mid "") (execWithCapture p) := by
              simpa [onmessage] using hr
            rw [hr2]
            exact execWithCapture_ok_iff p
        | threw m f =>
            have hr2 : r = catchReply (Option.getD mid "") m f := by
              simpa [onmessage] using hr
            rw [hr2]
            simp [catchReply]
    | unknown t =>
        have hr2 : r = unknownReply (Option.getD mid "") t := by
          simpa [onmessage] using hr
        rw [hr2]
        simp [unknownReply]
  · intro m f hm r hr
    cases payload with
    | init u =>
        have hr2 : r = catchReply (Option.getD mid "") m f := by
          simpa [onmessage] using hr
        exact ⟨by rw [hr2]; rfl, by rw [hr2]; rfl, m, by rw [hr2]; rfl, hm⟩
    | runCode code =>
        have hr2 : r = catchReply (Option.getD mid "") m f := by
          simpa [onmessage] using hr
        exact ⟨by rw [hr2]; rfl, by rw [hr2]; rfl, m, by rw [hr2]; rfl, hm⟩
    | unknown t =>
        have hr2 : r = unknownReply (Option.getD mid "") t := by
          simpa [onmessage] using hr
        refine ⟨by rw [hr2]; rfl, by rw [hr2]; rfl,
          "Unknown message type: " ++ renderMsgType t, by rw [hr2]; rfl, ?_⟩
        exact append_ne_empty_left "Unknown message type: " (renderMsgType t) (by decide)

/-- C2 witness: a `runCode` message handled while the runtime fails to load
is answered with `ok = false`, `exitCode = 1` and the non-empty error string;
a successful probe reply satisfies the ok-iff-zero invariant. -/
theorem worker_reply_invariant_witness :
    (catchReply "c1" "load failed" "Error: load failed").ok = false ∧
    (catchReply "c1" "load failed" "Error: load failed").exitCode = 1 ∧
    ∃ s, (catchReply "c1" "load failed" "Error: load failed").error = some s ∧ s ≠ "" :=
  (worker_reply_invariant { id := some "c1", payload := InPayload.runCode "x" }
      (HandleOutcome.ran (PyRunOutcome.ran 0 "" ""))).2
    "load failed" "Error: load failed" (by decide)
    (catchReply "c1" "load failed" "Error: load failed") (by decide)

/-- C3: `ensurePyodide` is memoized — once `pyPromise` is set, every call
returns the stored promise with the state untouched; any non-empty sequence
of handled `init`/`runCode` messages performs exactly one runtime load; and
the first call fixes the index URL: the caller-supplied one normalized to end
with `/`, or the built-in default, so the fixed URL always ends with `/`. -/
theorem ensurePyodide_memoized :
    (∀ c st q, st.pyPromise = some q → ensurePyodide c st = (q, st)) ∧
    (∀ c cs, (runCalls (c :: cs) initialWorkerState).loadCount = 1) ∧
    (∀ c, endsWithSlash (ensurePyodide c initialWorkerState).2.indexUrl = true) ∧
    (∀ u, u ≠ "" → (ensurePyodide (some u) initialWorkerState).2.indexUrl
      = normalizeIndexURL u) ∧
    (ensurePyodide none initialWorkerState).2.indexUrl = PYODIDE_INDEX_URL := by
  refine ⟨ensurePyodide_stable, ?_, ?_, ?_, rfl⟩
  · intro c cs
    show (runCalls cs (ensurePyodide c initialWorkerState).2).loadCount = 1
    obtain ⟨hprom, hcount⟩ := ensurePyodide_first c
    rw [runCalls_stable cs _ 0 hprom]
    exact hcount
  · intro c
    cases c with
    | none => decide
    | some u =>
        unfold ensurePyodide initialWorkerState
        by_cases h : (u != "") = true
        · simpa [h] using endsWithSlash_normalizeIndexURL u
        · simp [h]
          decide
  · intro u hu
    unfold ensurePyodide initialWorkerState
    simp [bne_iff_ne, hu]

/-- C3 witness: with the stored promise token 5 present, `ensurePyodide`
returns it unchanged; a double `init` with a custom URL loads exactly once
and fixes the normalized URL. -/
theorem ensurePyodide_memoized_witness :
    ensurePyodide none { pyPromise := some 5, indexUrl := "u/", loadCount := 1 }
      = (5, { pyPromise := some 5, indexUrl := "u/", loadCount := 1 }) ∧
    (runCalls [some "https://cdn.example/pyodide", some "https://cdn.example/pyodide"]
      initialWorkerState).loadCount = 1 ∧
    (ensurePyodide (some "https://cdn.example/pyodide") initialWorkerState).2.indexUrl
      = normalizeIndexURL "https://cdn.example/pyodide" :=
  ⟨ensurePyodide_memoized.1 none { pyPromise := some 5, indexUrl := "u/", loadCount := 1 } 5 rfl,
    ensurePyodide_memoized.2.1 (some "https://cdn.example/pyodide")
      [some "https://cdn.example/pyodide"],
    ensurePyodide_memoized.2.2.2.1 "https://cdn.example/pyodide" (by decide)⟩

/-- C5: `create` throws its validation error for every resolved runtime other
than `python` (`options.runtime ?? config.runtime ?? 'python'`), returning
with the provider state untouched — no worker spawned, registry unchanged;
and `runCommand` always returns a well-formed failing result with exit code
127, empty stdout and non-empty stderr, rather than throwing. -/
theorem unsupported_capabilities (config : BrowserConfig)
    (options : Option CreateSandboxOptions) (st : ProviderState) (freshId : String)
    (sb : BrowserSandbox) (cmd : String) :
    (resolvedRuntime config options ≠ "python" →
      create config options st freshId =
        (st, Except.error ("Unsupported runtime \"" ++ resolvedRuntime config options ++
          "\". Only \"python\" is supported."))) ∧
    (runCommand sb cmd).exitCode = 127 ∧
    (runCommand sb cmd).stdout = "" ∧
    (runCommand sb cmd).stderr ≠ "" := by
  refine ⟨?_, rfl, rfl, ?_⟩
  · intro h
    unfold create
    rw [if_pos h]
  · show ("runCommand(\"" ++ cmd ++ "\") not supported in browser") ≠ ""
    exact append_ne_empty_left _ _ (by
      rw [String.data_append]
      intro hc
      exact absurd (List.append_eq_nil.mp hc).1 (by decide))

/-- C5 witness: requesting runtime `node` makes `create` fail with the
validation error and leave a concrete provider state unchanged. -/
theorem unsupported_capabilities_witness :
    create { runtime := some "node", pyodideIndexURL := none } none
      { registry := [], spawned := 0 } "u1" =
      ({ registry := [], spawned := 0 },
        Except.error "Unsupported runtime \"node\". Only \"python\" is supported.") :=
  (unsupported_capabilities { runtime := some "node", pyodideIndexURL := none } none
      { registry := [], spawned := 0 } "u1"
      { id := "s", runtime := "python", worker := 0 } "ls").1 (by decide)

/-- C8: the watch handler invokes the callback exactly on well-formed records
— a rename carrying both paths, or a create/modify/remove carrying its path —
forwarding kind and paths unchanged; a falsy record, a missing callback, or
any malformed record produces no invocation and no fault. -/
theorem watch_forwards_wellformed :
    (∀ m, (watchHandler (some m) true).isSome = wellFormedWatchMsg m) ∧
    (∀ m f t, m.type = some "rename" → m.fromPath = some f → f ≠ "" →
      m.toPath = some t → t ≠ "" →
      watchHandler (some m) true = some (WatchEvent.rename f t)) ∧
    (∀ m pa, m.type = some "create" → m.path = some pa → pa ≠ "" →
      watchHandler (some m) true = some (WatchEvent.create pa)) ∧
    (∀ m pa, m.type = some "modify" → m.path = some pa → pa ≠ "" →
      watchHandler (some m) true = some (WatchEvent.modify pa)) ∧
    (∀ m pa, m.type = some "remove" → m.path = some pa → pa ≠ "" →
      watchHandler (some m) true = some (WatchEvent.remove pa)) ∧
    (∀ cb, watchHandler none cb = none) ∧
    (∀ m, watchHandler (some m) false = none) := by
  refine ⟨?_, ?_, ?_, ?_, ?_, fun cb => rfl, fun m => rfl⟩
  · intro m
    cases hR : (m.type == some "rename") <;>
      cases hC : (m.type == some "create") <;>
        cases hM : (m.type == some "modify") <;>
          cases hRm : (m.type == some "remove") <;>
            cases hF : truthy m.fromPath <;>
              cases hT : truthy m.toPath <;>
                cases hP : truthy m.path <;>
                  simp [watchHandler, wellFormedWatchMsg, hR, hC, hM, hRm, hF, hT, hP]
  · intro m f t hty hf hfne ht htne
    obtain ⟨ty, pa, fp, tp⟩ := m
    simp only at hty hf ht
    subst hty; subst hf; subst ht
    simp [watchHandler, truthy, bne_iff_ne, hfne, htne]
  · intro m pa hty hp hpne
    obtain ⟨ty, pa0, fp, tp⟩ := m
    simp only at hty hp
    subst hty; subst hp
    simp [watchHandler, truthy, bne_iff_ne, hpne]
  · intro m pa hty hp hpne
    obtain ⟨ty, pa0, fp, tp⟩ := m
    simp only at hty hp
    subst hty; subst hp
    simp [watchHandler, truthy, bne_iff_ne, hpne]
  · intro m pa hty hp hpne
    obtain ⟨ty, pa0, fp, tp⟩ := m
    simp only at hty hp
    subst hty; subst hp
    simp [watchHandler, truthy, bne_iff_ne, hpne]

/-- C8 witness: a well-formed rename record is forwarded with both paths
unchanged. -/
theorem watch_forwards_wellformed_witness :
    watchHandler
      (some { type := some "rename", path := none, fromPath := some "/a", toPath := some "/b" })
      true = some (WatchEvent.rename "/a" "/b") :=
  watch_forwards_wellformed.2.1
    { type := some "rename", path := none, fromPath := some "/a", toPath := some "/b" }
    "/a" "/b" rfl rfl (by decide) rfl (by decide)

/-- C10: the worker dispatcher posts exactly one reply per inbound message,
echoing the inbound `id` verbatim (the empty string when absent); and when
handling an interpreter-bound message throws, the fault is converted into the
posted `{id, ok:false, exitCode:1, error, stderr}` reply rather than escaping
unreplied. -/
theorem dispatcher_one_reply (msg : InMsg) (out : HandleOutcome) :
    (onmessage msg out).length = 1 ∧
    (∀ r ∈ onmessage msg out, r.id = msg.id.getD "") ∧
    (∀ m f, isExecMsg msg.payload = true →
      onmessage msg (HandleOutcome.threw m f) = [catchReply (msg.id.getD "") m f]) := by
  obtain ⟨mid, payload⟩ := msg
  refine ⟨?_, ?_, ?_⟩
  · cases payload <;> cases out <;> rfl
  · intro r hr
    cases payload with
    | init u =>
        cases out with
        | ran p =>
            have hr2 : r = replyOfExec (Option.getD mid "") (execWithCapture p) := by
              simpa [onmessage] using hr
            rw [hr2]; rfl
        | threw m f =>
            have hr2 : r = catchReply (Option.getD mid "") m f := by
              simpa [onmessage] using hr
            rw [hr2]; rfl
    | runCode code =>
        cases out with
        | ran p =>
            have hr2 : r = replyOfExec (Option.getD mid "") (execWithCapture p) := by
              simpa [onmessage] using hr
            rw [hr2]; rfl
        | threw m f =>
            have hr2 : r = catchReply (Option.getD mid "") m f := by
              simpa [onmessage] using hr
            rw [hr2]; rfl
    | unknown t =>
        have hr2 : r = unknownReply (Option.getD mid "") t := by
          simpa [onmessage] using hr
        rw [hr2]; rfl
  · intro m f hexec
    cases payload with
    | init u => rfl
    | runCode code => rfl
    | unknown t => exact absurd hexec (by simp [isExecMsg])

/-- C10 witness: an id-less `runCode` message whose handling throws is
answered by exactly the one error reply echoing the empty id. -/
theorem dispatcher_one_reply_witness :
    onmessage { id := none, payload := InPayload.runCode "x" }
        (HandleOutcome.threw "boom" "Error: boom") = [catchReply "" "boom" "Error: boom"] :=
  (dispatcher_one_reply { id := none, payload := InPayload.runCode "x" }
      (HandleOutcome.ran (PyRunOutcome.ran 0 "" ""))).2.2 "boom" "Error: boom" rfl

end ComputeSDK
